import Mathlib

/-!
Verification of the monitor-output validator and the run orchestrator of
`skills/datto-rmm-component-dev/scripts/rmm.py`.

The embedding below translates the Python source directly:
* pure string helpers (`str.strip`, `str.rstrip`, `str.splitlines`) become
  Lean functions on `List Char`;
* functions that raise `RmmError` are modelled with `Option`/`Except`, where
  `none`/`.error` stands for the raised exception;
* the validator `validate_monitor_output` and the exit-code / preparation
  logic of `cmd_run` are translated statement by statement.

Caveats of the embedding, stated once here:
* `str.splitlines` is modelled for texts whose only line separators are
  `'\n'`; Python additionally splits on `'\r'` and some rare Unicode
  separators.
* Python `str.strip()` / `str.isspace()` recognise a few more Unicode
  whitespace characters than `Char.isWhitespace` (space, tab, CR, LF); the
  model uses the ASCII set.
* Python `repr` of a string is modelled for strings that contain no quotes,
  backslashes or control characters (the only ones appearing here).
-/

namespace Rmm

/-- Python `str.strip()` with no argument (ASCII whitespace): drop leading and
trailing whitespace characters. Used by `rmm.py` lines 41, 162 and 189. -/
def pyStrip (s : String) : String :=
  String.mk (((s.data.dropWhile Char.isWhitespace).reverse.dropWhile Char.isWhitespace).reverse)

/-- Python `str.lower()` on an ASCII string (`rmm.py` line 319): lower-case
every character. -/
def pyLower (s : String) : String := String.mk (s.data.map Char.toLower)

/-- Python `line.rstrip("\n")`: drop trailing newline characters
(`rmm.py` line 188). -/
def rstripNl (s : String) : String :=
  String.mk ((s.data.reverse.dropWhile (fun c => c == '\n')).reverse)

/-- Helper for `splitlines`: walk the character list, cutting a line at every
`'\n'`; `acc` holds the current line's characters in reverse. -/
def splitlinesAux : List Char → List Char → List String
  | [], acc => [String.mk acc.reverse]
  | c :: cs, acc =>
    if c = '\n' then String.mk acc.reverse :: splitlinesAux cs []
    else splitlinesAux cs (c :: acc)

/-- Python `text.splitlines()` (`rmm.py` line 159) for texts whose line
separators are `'\n'`: split at newlines; a trailing newline does not produce
a final empty line, and the empty text has no lines. -/
def splitlines (text : String) : List String :=
  let l := splitlinesAux text.data []
  if l.getLast? = some "" then l.dropLast else l

/-- The character class of `re.fullmatch(r"[A-Za-z0-9_]+", ...)`
(`rmm.py` line 42). -/
def varChar (c : Char) : Bool :=
  (decide ('A' ≤ c) && decide (c ≤ 'Z')) || (decide ('a' ≤ c) && decide (c ≤ 'z')) ||
    (decide ('0' ≤ c) && decide (c ≤ '9')) || c == '_'

/-- `validate_output_var` (`rmm.py` lines 40–46): strip the name, then require
a full match of `[A-Za-z0-9_]+` (non-empty, only letters, digits and
underscore); `none` models the raised `RmmError`. -/
def validate_output_var (output_var : String) : Option String :=
  if !(pyStrip output_var).data.isEmpty && (pyStrip output_var).data.all varChar then
    some (pyStrip output_var)
  else none

/-- `MonitorValidationResult` (`rmm.py` lines 149–152). -/
structure MonitorValidationResult where
  ok : Bool
  errors : List String
  deriving DecidableEq

/-- The four protocol markers (`rmm.py` lines 164–167). -/
def startDiagnosticMarker : String := "<-Start Diagnostic->"

def endDiagnosticMarker : String := "<-End Diagnostic->"

def startResultMarker : String := "<-Start Result->"

def endResultMarker : String := "<-End Result->"

/-- `find_all(marker)` (`rmm.py` lines 161–162): the indices of the lines that
equal the marker after stripping surrounding whitespace. -/
def find_all (lines : List String) (marker : String) : List Nat :=
  (List.range lines.length).filter (fun i => decide (pyStrip (lines.getD i "") = marker))

/-- The count-error message of `rmm.py` lines 170/172/174/176. -/
def countMsg (marker : String) : String :=
  "Expected exactly one '" ++ marker ++ "' line."

/-- The ordering-error message of `rmm.py` lines 183–185. -/
def orderMsg : String :=
  "Marker order must be: Start Diagnostic -> End Diagnostic -> Start Result -> End Result."

/-- The empty-result-block message of `rmm.py` line 191. -/
def emptyBlockMsg : String :=
  "Result block is empty; expected one output variable line."

/-- The match-count message of `rmm.py` lines 197–199. -/
def matchCountMsg (ov : String) (n : Nat) : String :=
  "Expected exactly one '" ++ ov ++ "=...' line inside the result block; found " ++
    toString n ++ "."

/-- The example line of `rmm.py` line 200. -/
def exampleMsg : String := "Example: Status=OK: All checks passed"

/-- The extra-lines message of `rmm.py` line 205. -/
def extraLinesMsg : String :=
  "Result block must contain exactly one non-empty line (the output variable line)."

/-- Python `repr` of a string without quotes, backslashes or control
characters. -/
def pyStrRepr (s : String) : String := "'" ++ s ++ "'"

/-- Python `repr` of a list of strings, as interpolated by the f-string of
`rmm.py` line 206. -/
def pyListRepr (l : List String) : String :=
  "[" ++ String.intercalate ", " (l.map pyStrRepr) ++ "]"

/-- The unexpected-additional-lines message of `rmm.py` line 206. -/
def unexpectedLinesMsg (other : List String) : String :=
  "Unexpected additional lines: " ++ pyListRepr other

/-- The value-whitespace message of `rmm.py` line 211. -/
def valueSpaceMsg : String :=
  "Do not include spaces around '=' (use 'Status=OK: ...', not 'Status= OK: ...')."

/-- The marker-count stage of `rmm.py` lines 169–176: one error per marker
whose line count differs from one, in source order (Start Diagnostic,
End Diagnostic, Start Result, End Result). -/
def marker_count_errors (lines : List String) : List String :=
  (if (find_all lines startDiagnosticMarker).length = 1 then [] else [countMsg startDiagnosticMarker]) ++
  (if (find_all lines endDiagnosticMarker).length = 1 then [] else [countMsg endDiagnosticMarker]) ++
  (if (find_all lines startResultMarker).length = 1 then [] else [countMsg startResultMarker]) ++
  (if (find_all lines endResultMarker).length = 1 then [] else [countMsg endResultMarker])

/-- `diag_start[0]` of `rmm.py` line 181; `headD 0` because the index is only
used after the count stage guarantees the list has exactly one element. -/
def startDiagIdx (lines : List String) : Nat :=
  (find_all lines startDiagnosticMarker).headD 0

/-- `diag_end[0]` of `rmm.py` line 181. -/
def endDiagIdx (lines : List String) : Nat :=
  (find_all lines endDiagnosticMarker).headD 0

/-- `res_start[0]` of `rmm.py` line 181. -/
def startResultIdx (lines : List String) : Nat :=
  (find_all lines startResultMarker).headD 0

/-- `res_end[0]` of `rmm.py` line 181. -/
def endResultIdx (lines : List String) : Nat :=
  (find_all lines endResultMarker).headD 0

/-- `result_lines` (`rmm.py` line 188): the slice `lines[rs + 1 : re_]` with
each line's trailing newlines stripped. -/
def resultBlock (lines : List String) : List String :=
  ((lines.drop (startResultIdx lines + 1)).take
      (endResultIdx lines - (startResultIdx lines + 1))).map rstripNl

/-- `non_empty` (`rmm.py` line 189): the result-block lines that are non-empty
after stripping. -/
def resultNonEmpty (lines : List String) : List String :=
  (resultBlock lines).filter (fun ln => !(pyStrip ln == ""))

/-- `pattern.match(ln)` for `pattern = re.compile(rf"^{re.escape(ov)}=.+$")`
(`rmm.py` lines 194–195) on a line that contains no newline: the line starts
with `ov` then `=`, and at least one character follows the `=`. -/
def resultLineMatches (ov ln : String) : Bool :=
  (ov.data ++ ['=']).isPrefixOf ln.data && decide (ov.data.length + 1 < ln.data.length)

/-- `matching` (`rmm.py` line 195): the non-empty result-block lines matching
the pattern. -/
def resultMatching (lines : List String) (ov : String) : List String :=
  (resultNonEmpty lines).filter (resultLineMatches ov)

/-- `validate_monitor_output` after the name check (`rmm.py` lines 159–214).
Each early `return` of the source becomes one branch of the `if` chain.
`other_lines` (source line 203) filters by CPython object identity
(`ln is not matching[0]`); the branch is reached only when exactly one line of
`non_empty` matches the pattern, and then a line textually equal to
`matching[0]` would itself match, so filtering by string inequality agrees
with the identity filter on every reachable input. -/
def validate_lines (lines : List String) (ov : String) : MonitorValidationResult :=
  if marker_count_errors lines ≠ [] then ⟨false, marker_count_errors lines⟩
  else if ¬(startDiagIdx lines < endDiagIdx lines ∧ endDiagIdx lines < startResultIdx lines ∧
      startResultIdx lines < endResultIdx lines) then
    ⟨false, [orderMsg]⟩
  else if resultNonEmpty lines = [] then ⟨false, [emptyBlockMsg]⟩
  else if (resultMatching lines ov).length ≠ 1 then
    ⟨false, [matchCountMsg ov (resultMatching lines ov).length, exampleMsg]⟩
  else if (resultNonEmpty lines).filter (fun ln => ln != (resultMatching lines ov).headD "") ≠ [] then
    ⟨false, [extraLinesMsg,
      unexpectedLinesMsg ((resultNonEmpty lines).filter
        (fun ln => ln != (resultMatching lines ov).headD ""))]⟩
  else
    match ((resultMatching lines ov).headD "").data.drop (ov.data.length + 1) with
    | [] => ⟨true, []⟩
    | c :: _ => if c.isWhitespace then ⟨false, [valueSpaceMsg]⟩ else ⟨true, []⟩

/-- `validate_monitor_output` (`rmm.py` lines 155–214). `none` models the
`RmmError` raised by `validate_output_var` on a degenerate name (line 157);
otherwise the validator runs on the split lines with the stripped name. -/
def validate_monitor_output (text : String) (output_var : String) :
    Option MonitorValidationResult :=
  match validate_output_var output_var with
  | none => none
  | some ov => some (validate_lines (splitlines text) ov)

/-- `should_validate` of `cmd_run` (`rmm.py` lines 347–349): the explicit
`--validate-monitor` flag, or `"Monitors"` occurring among the components of
the resolved script path (`script_path.parts`). -/
def should_validate (validate_monitor : Bool) (script_parts : List String) : Bool :=
  validate_monitor || script_parts.contains "Monitors"

/-- The final exit code of `cmd_run` (`rmm.py` lines 343–364) as a function of
the validation inputs: the child's return code is kept unless validation is
performed, fails, and the child returned 0, in which case the fixed code 2 is
returned (line 362). `none` models the `RmmError` raised on a bad
output-variable name during validation. -/
def cmd_run_exit (validate_monitor : Bool) (script_parts : List String)
    (stdout_text output_var : String) (returncode : Int) : Option Int :=
  if should_validate validate_monitor script_parts then
    match validate_monitor_output stdout_text output_var with
    | none => none
    | some validation =>
      if validation.ok then some returncode
      else if returncode = 0 then some 2 else some returncode
  else some returncode

/-- The observable preparation state of one `cmd_run` call: whether the
working directory has been created (line 307), whether the attachment-copy
step has run (line 314), and whether the child process has been spawned
(line 332). -/
structure RunPrepState where
  workdirCreated : Bool
  attachmentsCopied : Bool
  spawned : Bool
  deriving DecidableEq

/-- The configuration errors (`RmmError`) that `cmd_run` can raise before
spawning: missing script (line 302), malformed `--vars` file (lines 119–135),
bad `--attachments` directory (line 113), unsupported script extension
(line 324). -/
inductive RunConfigError where
  | scriptNotFound
  | varsFileError
  | attachmentsError
  | unsupportedExtension
  deriving DecidableEq

/-- The preparation phase of `cmd_run` (`rmm.py` lines 297–332), in source
order. The boolean inputs abstract each I/O step's outcome: `varsArg` and
`attachmentsArg` are `none` when the flag was not passed, `some true` when the
step succeeds, `some false` when it raises `RmmError`. An error carries the
`RunPrepState` at the moment it is raised; `.ok` means the child process is
spawned. -/
def cmd_run_prepare (scriptExists : Bool) (varsArg attachmentsArg : Option Bool)
    (suffix : String) : Except (RunConfigError × RunPrepState) RunPrepState :=
  if !scriptExists then .error (.scriptNotFound, ⟨false, false, false⟩)
  else
    -- line 307: workdir.mkdir(parents=True, exist_ok=True) has now run
    if varsArg = some false then .error (.varsFileError, ⟨true, false, false⟩)
    else if attachmentsArg = some false then .error (.attachmentsError, ⟨true, false, false⟩)
    else
      -- lines 313–314: attachments are copied into the workdir when supplied
      if pyLower suffix = ".ps1" || pyLower suffix = ".sh" then
        .ok ⟨true, attachmentsArg == some true, true⟩
      else .error (.unsupportedExtension, ⟨true, attachmentsArg == some true, false⟩)

/-! ### Stage lemmas for `validate_lines`

One lemma per early `return` of `validate_monitor_output`; each states the
result under the hypotheses that make its branch the one taken. -/

theorem validate_lines_of_count_errors (lines : List String) (ov : String)
    (h : marker_count_errors lines ≠ []) :
    validate_lines lines ov = ⟨false, marker_count_errors lines⟩ := by
  unfold validate_lines
  simp [h]

theorem validate_lines_of_bad_order (lines : List String) (ov : String)
    (hc : marker_count_errors lines = [])
    (ho : ¬(startDiagIdx lines < endDiagIdx lines ∧ endDiagIdx lines < startResultIdx lines ∧
        startResultIdx lines < endResultIdx lines)) :
    validate_lines lines ov = ⟨false, [orderMsg]⟩ := by
  unfold validate_lines
  simp [hc, ho]

theorem validate_lines_of_empty_block (lines : List String) (ov : String)
    (hc : marker_count_errors lines = [])
    (ho : startDiagIdx lines < endDiagIdx lines ∧ endDiagIdx lines < startResultIdx lines ∧
      startResultIdx lines < endResultIdx lines)
    (he : resultNonEmpty lines = []) :
    validate_lines lines ov = ⟨false, [emptyBlockMsg]⟩ := by
  unfold validate_lines
  simp [hc, ho, he]

theorem validate_lines_of_match_count (lines : List String) (ov : String)
    (hc : marker_count_errors lines = [])
    (ho : startDiagIdx lines < endDiagIdx lines ∧ endDiagIdx lines < startResultIdx lines ∧
      startResultIdx lines < endResultIdx lines)
    (he : resultNonEmpty lines ≠ [])
    (hm : (resultMatching lines ov).length ≠ 1) :
    validate_lines lines ov =
      ⟨false, [matchCountMsg ov (resultMatching lines ov).length, exampleMsg]⟩ := by
  unfold validate_lines
  simp [hc, ho, he, hm]

theorem validate_lines_of_extra_lines (lines : List String) (ov : String)
    (hc : marker_count_errors lines = [])
    (ho : startDiagIdx lines < endDiagIdx lines ∧ endDiagIdx lines < startResultIdx lines ∧
      startResultIdx lines < endResultIdx lines)
    (he : resultNonEmpty lines ≠ [])
    (hm : (resultMatching lines ov).length = 1)
    (hx : (resultNonEmpty lines).filter
        (fun ln => ln != (resultMatching lines ov).headD "") ≠ []) :
    validate_lines lines ov = ⟨false, [extraLinesMsg,
      unexpectedLinesMsg ((resultNonEmpty lines).filter
        (fun ln => ln != (resultMatching lines ov).headD ""))]⟩ := by
  unfold validate_lines
  rw [if_neg (fun hcon => hcon hc), if_neg (not_not_intro ho), if_neg he,
    if_neg (fun hcon => hcon hm), if_pos hx]

theorem validate_lines_of_value_space (lines : List String) (ov : String)
    (hc : marker_count_errors lines = [])
    (ho : startDiagIdx lines < endDiagIdx lines ∧ endDiagIdx lines < startResultIdx lines ∧
      startResultIdx lines < endResultIdx lines)
    (he : resultNonEmpty lines ≠ [])
    (hm : (resultMatching lines ov).length = 1)
    (hx : (resultNonEmpty lines).filter
        (fun ln => ln != (resultMatching lines ov).headD "") = [])
    (c : Char) (rest : List Char)
    (hv : ((resultMatching lines ov).headD "").data.drop (ov.data.length + 1) = c :: rest)
    (hw : c.isWhitespace = true) :
    validate_lines lines ov = ⟨false, [valueSpaceMsg]⟩ := by
  unfold validate_lines
  rw [if_neg (fun hcon => hcon hc), if_neg (not_not_intro ho), if_neg he,
    if_neg (fun hcon => hcon hm), if_neg (fun hcon => hcon hx), hv]
  exact if_pos hw

theorem validate_monitor_output_some (text output_var : String) (r : MonitorValidationResult)
    (h : validate_monitor_output text output_var = some r) :
    ∃ ov, validate_output_var output_var = some ov ∧
      r = validate_lines (splitlines text) ov := by
  unfold validate_monitor_output at h
  cases hv : validate_output_var output_var with
  | none => rw [hv] at h; cases h
  | some ov => rw [hv] at h; exact ⟨ov, rfl, (Option.some.inj h).symm⟩

theorem validate_lines_ok_iff (lines : List String) (ov : String) :
    ((validate_lines lines ov).ok = true → (validate_lines lines ov).errors = []) ∧
    ((validate_lines lines ov).ok = false → (validate_lines lines ov).errors ≠ []) := by
  unfold validate_lines
  repeat' split
  all_goals simp_all

/-! ### The claims -/

/-- C2: whenever `validate_monitor_output` returns a result (rather than
raising on a bad name), `ok = true` implies the error list is empty and
`ok = false` implies it has at least one entry. -/
theorem C2_validation_result_invariant (text output_var : String)
    (r : MonitorValidationResult)
    (h : validate_monitor_output text output_var = some r) :
    (r.ok = true → r.errors = []) ∧ (r.ok = false → r.errors ≠ []) := by
  obtain ⟨ov, _, hr⟩ := validate_monitor_output_some text output_var r h
  subst hr
  exact validate_lines_ok_iff (splitlines text) ov

/-- The well-formed example text of the spec's §8. -/
def goodText : String :=
  "<-Start Diagnostic->\nchecking\n<-End Diagnostic->\n<-Start Result->\nStatus=OK: all good\n<-End Result->\n"

theorem C2_witness :
    ((⟨true, []⟩ : MonitorValidationResult).ok = true →
      (⟨true, []⟩ : MonitorValidationResult).errors = []) ∧
    ((⟨true, []⟩ : MonitorValidationResult).ok = false →
      (⟨true, []⟩ : MonitorValidationResult).errors ≠ []) :=
  C2_validation_result_invariant goodText "Status" ⟨true, []⟩ (by decide)

/-- C4: when each of the four markers occurs exactly once (no count errors)
but the marker indices are not strictly increasing in the required order,
validation fails with exactly the single ordering error — no content checks
contribute, whatever the blocks contain. -/
theorem C4_marker_ordering (text output_var : String) (r : MonitorValidationResult)
    (h : validate_monitor_output text output_var = some r)
    (hc : marker_count_errors (splitlines text) = [])
    (ho : ¬(startDiagIdx (splitlines text) < endDiagIdx (splitlines text) ∧
        endDiagIdx (splitlines text) < startResultIdx (splitlines text) ∧
        startResultIdx (splitlines text) < endResultIdx (splitlines text))) :
    r = ⟨false, [orderMsg]⟩ := by
  obtain ⟨ov, _, hr⟩ := validate_monitor_output_some text output_var r h
  subst hr
  exact validate_lines_of_bad_order _ _ hc ho

/-- All four markers exactly once, but Start Result before End Diagnostic. -/
def outOfOrderText : String :=
  "<-Start Diagnostic->\nd\n<-Start Result->\n<-End Diagnostic->\nStatus=OK\n<-End Result->"

theorem C4_witness :
    validate_monitor_output outOfOrderText "Status" = some ⟨false, [orderMsg]⟩ := by
  have h0 : validate_monitor_output outOfOrderText "Status" =
      some (validate_lines (splitlines outOfOrderText) "Status") := by decide
  rw [h0, C4_marker_ordering outOfOrderText "Status" _ h0 (by decide) (by decide)]

/-- C1: when validation is performed, a failed validation turns a zero child
exit code into the fixed validation-failure code 2, and a non-zero child exit
code is always passed through unchanged, whatever validation said. -/
theorem C1_final_exit_code (vm : Bool) (parts : List String)
    (stdout_text output_var : String) (rc : Int) (v : MonitorValidationResult)
    (hsv : should_validate vm parts = true)
    (hval : validate_monitor_output stdout_text output_var = some v) :
    (rc = 0 → v.ok = false → cmd_run_exit vm parts stdout_text output_var rc = some 2) ∧
    (rc ≠ 0 → cmd_run_exit vm parts stdout_text output_var rc = some rc) := by
  constructor
  · intro h0 hok
    simp [cmd_run_exit, hsv, hval, hok, h0]
  · intro hne
    cases hok : v.ok <;> simp [cmd_run_exit, hsv, hval, hok, hne]

/-- The validation result for empty captured stdout: all four markers are
missing. -/
def emptyOutFailure : MonitorValidationResult :=
  ⟨false, [countMsg startDiagnosticMarker, countMsg endDiagnosticMarker,
    countMsg startResultMarker, countMsg endResultMarker]⟩

theorem C1_witness :
    cmd_run_exit true [] "" "Status" 0 = some 2 ∧
    cmd_run_exit true [] "" "Status" 7 = some 7 :=
  ⟨(C1_final_exit_code true [] "" "Status" 0 emptyOutFailure (by decide) (by decide)).1
      rfl rfl,
   (C1_final_exit_code true [] "" "Status" 7 emptyOutFailure (by decide) (by decide)).2
      (by decide)⟩

/-- C5 counterexample: with the explicit flag off, whether validation is
performed changes with the script path's components alone — the monitor
classification is inferred by matching the path's text against `"Monitors"`,
not taken from a separate caller-supplied signal. -/
theorem C5_counterexample :
    should_validate false ["components", "Monitors", "check.ps1"] = true ∧
    should_validate false ["components", "Scripts", "check.ps1"] = false := by
  decide

/-- C5 amended: the run operation performs validation exactly when the caller
passed the explicit flag or `"Monitors"` is one of the resolved script path's
components; the monitor classification is inferred from the path. -/
theorem C5_amended_path_classification (vm : Bool) (parts : List String) :
    should_validate vm parts = true ↔ vm = true ∨ "Monitors" ∈ parts := by
  simp [should_validate]

/-- C6 counterexample: an unsupported-extension configuration error is raised
only after the working directory has been created and the attachments copied,
so a configuration error can leave partially prepared state. -/
theorem C6_counterexample :
    cmd_run_prepare true none (some true) ".txt" =
      .error (.unsupportedExtension, ⟨true, true, false⟩) := rfl

/-- C6 amended: every configuration error of the run operation is raised
before the child process is spawned and aborts the call, and the
missing-script error leaves no prepared state; but the malformed-vars and
bad-attachments errors are raised after the working directory has been
created, and the unsupported-extension error additionally after any
attachments have been copied. -/
theorem C6_amended_prepare_errors (scriptExists : Bool)
    (varsArg attachmentsArg : Option Bool) (suffix : String)
    (e : RunConfigError) (st : RunPrepState)
    (h : cmd_run_prepare scriptExists varsArg attachmentsArg suffix = .error (e, st)) :
    st.spawned = false ∧
    (e = .scriptNotFound → st = ⟨false, false, false⟩) ∧
    ((e = .varsFileError ∨ e = .attachmentsError) → st = ⟨true, false, false⟩) ∧
    (e = .unsupportedExtension →
      st.workdirCreated = true ∧ st.attachmentsCopied = (attachmentsArg == some true)) := by
  unfold cmd_run_prepare at h
  split at h
  · simp only [Except.error.injEq, Prod.mk.injEq] at h
    obtain ⟨he, hst⟩ := h
    subst he; subst hst
    refine ⟨rfl, fun _ => rfl, ?_, ?_⟩ <;> simp
  · split at h
    · simp only [Except.error.injEq, Prod.mk.injEq] at h
      obtain ⟨he, hst⟩ := h
      subst he; subst hst
      refine ⟨rfl, ?_, fun _ => rfl, ?_⟩ <;> simp
    · split at h
      · simp only [Except.error.injEq, Prod.mk.injEq] at h
        obtain ⟨he, hst⟩ := h
        subst he; subst hst
        refine ⟨rfl, ?_, fun _ => rfl, ?_⟩ <;> simp
      · split at h
        · simp at h
        · simp only [Except.error.injEq, Prod.mk.injEq] at h
          obtain ⟨he, hst⟩ := h
          subst he; subst hst
          refine ⟨rfl, ?_, ?_, fun _ => ⟨rfl, rfl⟩⟩ <;> simp

/-! ### Helper lemmas about names, stripping and the anchored pattern -/

theorem varChar_not_whitespace (c : Char) (h : varChar c = true) :
    c.isWhitespace = false := by
  cases hw : c.isWhitespace
  · rfl
  · exfalso
    simp only [Char.isWhitespace, Bool.or_eq_true, decide_eq_true_eq] at hw
    rcases hw with ((h1 | h1) | h1) | h1 <;> subst h1 <;> revert h <;> decide

theorem dropWhile_eq_self_of_head (p : Char → Bool) (l : List Char)
    (h : ∀ c ∈ l, p c = false) : l.dropWhile p = l := by
  cases l with
  | nil => rfl
  | cons a t => simp [List.dropWhile_cons, h a (List.mem_cons_self a t)]

/-- A name that matched `[A-Za-z0-9_]+` contains no whitespace, so stripping
it again changes nothing. -/
theorem pyStrip_eq_self (s : String) (h : s.data.all varChar = true) :
    pyStrip s = s := by
  have hmem : ∀ c ∈ s.data, c.isWhitespace = false := fun c hc =>
    varChar_not_whitespace c (List.all_eq_true.mp h c hc)
  unfold pyStrip
  rw [dropWhile_eq_self_of_head _ _ hmem,
    dropWhile_eq_self_of_head _ _ (fun c hc => hmem c (List.mem_reverse.mp hc)),
    List.reverse_reverse]

theorem validate_output_var_some (s v : String)
    (h : validate_output_var s = some v) :
    v = pyStrip s ∧ v.data ≠ [] ∧ v.data.all varChar = true := by
  unfold validate_output_var at h
  split at h
  · next hcond =>
    rw [Bool.and_eq_true] at hcond
    injection h with h'
    subst h'
    exact ⟨rfl, by simpa using hcond.1, hcond.2⟩
  · cases h

/-- If exactly one of two lines matches the pattern, filtering out the lines
equal to the (unique) matching one leaves the other line, so the extra-lines
filter is non-empty. -/
theorem filter_ne_headD_ne_nil (a b m0 : String) (p : String → Bool)
    (hm : ([a, b].filter p).length = 1) :
    [a, b].filter (fun ln => ln != ([a, b].filter p).headD m0) ≠ [] := by
  cases hpa : p a <;> cases hpb : p b
  · simp [hpa, hpb] at hm
  · have hab : a ≠ b := by
      intro he
      rw [he, hpb] at hpa
      simp at hpa
    simp [hpa, hpb, hab]
  · have hab : b ≠ a := by
      intro he
      rw [he, hpa] at hpb
      simp at hpb
    simp [hpa, hpb, hab]
  · simp [hpa, hpb] at hm

/-- The anchored pattern `^name=.+$` does not match a line that starts with
whitespace, because a valid name starts with a letter, digit or underscore. -/
theorem no_match_of_leading_whitespace (ov w rest : String)
    (hov : ov.data ≠ []) (hall : ov.data.all varChar = true)
    (hw : w.data ≠ []) (hws : w.data.all Char.isWhitespace = true) :
    resultLineMatches ov (w ++ ov ++ "=" ++ rest) = false := by
  have hp : ((ov.data ++ ['=']).isPrefixOf (w ++ ov ++ "=" ++ rest).data) = false := by
    rw [Bool.eq_false_iff]
    intro hpre
    rw [List.isPrefixOf_iff_prefix] at hpre
    cases hchar : ov.data with
    | nil => exact hov hchar
    | cons c ctail =>
      cases hwchar : w.data with
      | nil => exact hw hwchar
      | cons d dtail =>
        rw [String.data_append, String.data_append, String.data_append,
          hchar, hwchar] at hpre
        simp only [List.cons_append, List.cons_prefix_cons] at hpre
        have hcd : c = d := hpre.1
        have hcv : varChar c = true :=
          List.all_eq_true.mp hall c (by rw [hchar]; exact List.mem_cons_self c ctail)
        have hdw : d.isWhitespace = true :=
          List.all_eq_true.mp hws d (by rw [hwchar]; exact List.mem_cons_self d dtail)
        rw [← hcd] at hdw
        rw [varChar_not_whitespace c hcv] at hdw
        cases hdw
  unfold resultLineMatches
  rw [hp, Bool.false_and]

/-- Characterisation of the marker-count stage's error list: one count error
per marker whose count differs from one, and nothing else. -/
theorem marker_count_errors_spec (lines : List String) :
    (marker_count_errors lines).count (countMsg startDiagnosticMarker) =
      (if (find_all lines startDiagnosticMarker).length = 1 then 0 else 1) ∧
    (marker_count_errors lines).count (countMsg endDiagnosticMarker) =
      (if (find_all lines endDiagnosticMarker).length = 1 then 0 else 1) ∧
    (marker_count_errors lines).count (countMsg startResultMarker) =
      (if (find_all lines startResultMarker).length = 1 then 0 else 1) ∧
    (marker_count_errors lines).count (countMsg endResultMarker) =
      (if (find_all lines endResultMarker).length = 1 then 0 else 1) ∧
    (marker_count_errors lines).length =
      (if (find_all lines startDiagnosticMarker).length = 1 then 0 else 1) +
      (if (find_all lines endDiagnosticMarker).length = 1 then 0 else 1) +
      (if (find_all lines startResultMarker).length = 1 then 0 else 1) +
      (if (find_all lines endResultMarker).length = 1 then 0 else 1) := by
  by_cases h1 : (find_all lines startDiagnosticMarker).length = 1 <;>
    by_cases h2 : (find_all lines endDiagnosticMarker).length = 1 <;>
      by_cases h3 : (find_all lines startResultMarker).length = 1 <;>
        by_cases h4 : (find_all lines endResultMarker).length = 1 <;>
          simp [marker_count_errors, h1, h2, h3, h4] <;> decide

/-- Two Start-Diagnostic lines; the other three markers exactly once. -/
def twoStartDiagText : String :=
  "<-Start Diagnostic->\n<-Start Diagnostic->\nd\n<-End Diagnostic->\n<-Start Result->\nStatus=OK\n<-End Result->"

/-- C3: the marker-count stage checks all four counts before returning:
whenever some marker's line count differs from one, validation fails, the
error list holds exactly one count error per marker whose count is not one
and nothing else, and — concretely — a text with two Start-Diagnostic lines
and the other three markers once fails with the Start-Diagnostic count error
alone. -/
theorem C3_marker_count_stage (text output_var : String)
    (r : MonitorValidationResult)
    (h : validate_monitor_output text output_var = some r)
    (hbad : marker_count_errors (splitlines text) ≠ []) :
    r.ok = false ∧
    (r.errors.count (countMsg startDiagnosticMarker) =
      (if (find_all (splitlines text) startDiagnosticMarker).length = 1 then 0 else 1) ∧
    r.errors.count (countMsg endDiagnosticMarker) =
      (if (find_all (splitlines text) endDiagnosticMarker).length = 1 then 0 else 1) ∧
    r.errors.count (countMsg startResultMarker) =
      (if (find_all (splitlines text) startResultMarker).length = 1 then 0 else 1) ∧
    r.errors.count (countMsg endResultMarker) =
      (if (find_all (splitlines text) endResultMarker).length = 1 then 0 else 1) ∧
    r.errors.length =
      (if (find_all (splitlines text) startDiagnosticMarker).length = 1 then 0 else 1) +
      (if (find_all (splitlines text) endDiagnosticMarker).length = 1 then 0 else 1) +
      (if (find_all (splitlines text) startResultMarker).length = 1 then 0 else 1) +
      (if (find_all (splitlines text) endResultMarker).length = 1 then 0 else 1)) ∧
    validate_monitor_output twoStartDiagText "Status" =
      some ⟨false, [countMsg startDiagnosticMarker]⟩ := by
  obtain ⟨ov, _, hr⟩ := validate_monitor_output_some text output_var r h
  subst hr
  rw [validate_lines_of_count_errors _ _ hbad]
  exact ⟨rfl, marker_count_errors_spec (splitlines text), by decide⟩

theorem C3_witness :
    validate_monitor_output twoStartDiagText "Status" =
      some ⟨false, [countMsg startDiagnosticMarker]⟩ :=
  (C3_marker_count_stage twoStartDiagText "Status"
    (validate_lines (splitlines twoStartDiagText) "Status") (by decide) (by decide)).2.2

/-- A result block with two non-empty lines, one matching `Status=...`. -/
def extraLineText : String :=
  "<-Start Diagnostic->\nd\n<-End Diagnostic->\n<-Start Result->\nStatus=OK: fine\nnote\n<-End Result->"

/-- C7: with counts and ordering correct, a result block whose non-empty
lines are exactly two, exactly one of which matches the pattern, is rejected:
the result is `ok = false` with the extra-lines error and the message naming
the unexpected remaining line; the matching line is never silently accepted. -/
theorem C7_extra_line_rejected (text output_var ov : String)
    (r : MonitorValidationResult)
    (hov : validate_output_var output_var = some ov)
    (h : validate_monitor_output text output_var = some r)
    (hc : marker_count_errors (splitlines text) = [])
    (ho : startDiagIdx (splitlines text) < endDiagIdx (splitlines text) ∧
      endDiagIdx (splitlines text) < startResultIdx (splitlines text) ∧
      startResultIdx (splitlines text) < endResultIdx (splitlines text))
    (hlen : (resultNonEmpty (splitlines text)).length = 2)
    (hm : (resultMatching (splitlines text) ov).length = 1) :
    r.ok = false ∧ extraLinesMsg ∈ r.errors ∧
    r = ⟨false, [extraLinesMsg,
      unexpectedLinesMsg ((resultNonEmpty (splitlines text)).filter
        (fun ln => ln != (resultMatching (splitlines text) ov).headD ""))]⟩ ∧
    (resultNonEmpty (splitlines text)).filter
      (fun ln => ln != (resultMatching (splitlines text) ov).headD "") ≠ [] := by
  obtain ⟨ov', hov', hr⟩ := validate_monitor_output_some text output_var r h
  rw [hov] at hov'
  injection hov' with hoveq
  subst hoveq
  have he : resultNonEmpty (splitlines text) ≠ [] := by
    intro hnil
    rw [hnil] at hlen
    cases hlen
  obtain ⟨a, b, hab⟩ := List.length_eq_two.mp hlen
  have hm2 : ([a, b].filter (resultLineMatches ov)).length = 1 := by
    rw [← hab]
    exact hm
  have hx : (resultNonEmpty (splitlines text)).filter
      (fun ln => ln != (resultMatching (splitlines text) ov).headD "") ≠ [] := by
    unfold resultMatching
    rw [hab]
    exact filter_ne_headD_ne_nil a b "" (resultLineMatches ov) hm2
  have heq := validate_lines_of_extra_lines (splitlines text) ov hc ho he hm hx
  subst hr
  exact ⟨by rw [heq], by rw [heq]; exact List.mem_cons_self _ _, heq, hx⟩

theorem C7_witness :
    (validate_lines (splitlines extraLineText) "Status").ok = false ∧
    extraLinesMsg ∈ (validate_lines (splitlines extraLineText) "Status").errors :=
  ⟨(C7_extra_line_rejected extraLineText "Status" "Status"
      (validate_lines (splitlines extraLineText) "Status") (by decide) (by decide)
      (by decide) (by decide) (by decide) (by decide)).1,
   (C7_extra_line_rejected extraLineText "Status" "Status"
      (validate_lines (splitlines extraLineText) "Status") (by decide) (by decide)
      (by decide) (by decide) (by decide) (by decide)).2.1⟩

/-- The spec's §8 example with a space after the `=`. -/
def spaceValueText : String :=
  "<-Start Diagnostic->\nd\n<-End Diagnostic->\n<-Start Result->\nStatus= OK\n<-End Result->"

/-- C8: when every earlier stage passes and the single matching line's value
(the text after `name=`) begins with a whitespace character, validation fails
with exactly the one leading-whitespace error. -/
theorem C8_value_leading_whitespace (text output_var ov : String)
    (r : MonitorValidationResult)
    (hov : validate_output_var output_var = some ov)
    (h : validate_monitor_output text output_var = some r)
    (hc : marker_count_errors (splitlines text) = [])
    (ho : startDiagIdx (splitlines text) < endDiagIdx (splitlines text) ∧
      endDiagIdx (splitlines text) < startResultIdx (splitlines text) ∧
      startResultIdx (splitlines text) < endResultIdx (splitlines text))
    (he : resultNonEmpty (splitlines text) ≠ [])
    (hm : (resultMatching (splitlines text) ov).length = 1)
    (hx : (resultNonEmpty (splitlines text)).filter
      (fun ln => ln != (resultMatching (splitlines text) ov).headD "") = [])
    (c : Char) (rest : List Char)
    (hv : ((resultMatching (splitlines text) ov).headD "").data.drop
      (ov.data.length + 1) = c :: rest)
    (hw : c.isWhitespace = true) :
    r = ⟨false, [valueSpaceMsg]⟩ := by
  obtain ⟨ov', hov', hr⟩ := validate_monitor_output_some text output_var r h
  rw [hov] at hov'
  injection hov' with hoveq
  subst hoveq
  subst hr
  exact validate_lines_of_value_space (splitlines text) ov hc ho he hm hx c rest hv hw

theorem C8_witness :
    validate_lines (splitlines spaceValueText) "Status" = ⟨false, [valueSpaceMsg]⟩ :=
  C8_value_leading_whitespace spaceValueText "Status" "Status"
    (validate_lines (splitlines spaceValueText) "Status") (by decide) (by decide)
    (by decide) (by decide) (by decide) (by decide) (by decide) ' ' ['O', 'K']
    (by decide) (by decide)

/-- C9: the validator strips the caller's output-variable name before the
name check: a name whose stripped form is a non-empty string of letters,
digits and underscores is accepted and the validator behaves exactly as with
the stripped name; any other name makes `validate_output_var`, and hence
`validate_monitor_output`, raise (modelled as `none`) instead of returning a
result. -/
theorem C9_output_var_stripping (output_var : String) :
    (((pyStrip output_var).data ≠ [] ∧ (pyStrip output_var).data.all varChar = true) →
      validate_output_var output_var = some (pyStrip output_var) ∧
      ∀ text, validate_monitor_output text output_var =
        validate_monitor_output text (pyStrip output_var)) ∧
    (¬((pyStrip output_var).data ≠ [] ∧ (pyStrip output_var).data.all varChar = true) →
      validate_output_var output_var = none ∧
      ∀ text, validate_monitor_output text output_var = none) := by
  constructor
  · rintro ⟨hne, hall⟩
    have hcond : (!(pyStrip output_var).data.isEmpty &&
        (pyStrip output_var).data.all varChar) = true := by
      rw [Bool.and_eq_true]
      exact ⟨by simpa using hne, hall⟩
    have hvov : validate_output_var output_var = some (pyStrip output_var) := by
      unfold validate_output_var
      rw [if_pos hcond]
    have hself := pyStrip_eq_self (pyStrip output_var) hall
    have hvov2 : validate_output_var (pyStrip output_var) = some (pyStrip output_var) := by
      unfold validate_output_var
      rw [hself, if_pos hcond]
    refine ⟨hvov, fun text => ?_⟩
    unfold validate_monitor_output
    rw [hvov, hvov2]
  · intro hn
    have hcond : ¬((!(pyStrip output_var).data.isEmpty &&
        (pyStrip output_var).data.all varChar) = true) := by
      intro hcond
      rw [Bool.and_eq_true] at hcond
      exact hn ⟨by simpa using hcond.1, hcond.2⟩
    have hnone : validate_output_var output_var = none := by
      unfold validate_output_var
      rw [if_neg hcond]
    refine ⟨hnone, fun text => ?_⟩
    unfold validate_monitor_output
    rw [hnone]

theorem C9_witness :
    validate_output_var " Status " = some (pyStrip " Status ") ∧
    validate_monitor_output "x" " Status " =
      validate_monitor_output "x" (pyStrip " Status ") ∧
    validate_output_var " Sta tus " = none ∧
    validate_monitor_output "x" " Sta tus " = none :=
  ⟨((C9_output_var_stripping " Status ").1 (by decide)).1,
   ((C9_output_var_stripping " Status ").1 (by decide)).2 "x",
   ((C9_output_var_stripping " Sta tus ").2 (by decide)).1,
   ((C9_output_var_stripping " Sta tus ").2 (by decide)).2 "x"⟩

/-- Every marker line indented by two spaces; the result line is the required
`Status=OK` line, also indented by two spaces. -/
def indentedText : String :=
  "  <-Start Diagnostic->\nd\n  <-End Diagnostic->\n  <-Start Result->\n  Status=OK\n  <-End Result->"

/-- C10: the result-line pattern is anchored at the start of the untrimmed
line: if the only non-empty result-block line is the required `name=value`
line preceded by leading whitespace, no line matches and validation fails
with the exactly-one-match error reporting zero matches. Concretely, in a
text whose marker lines are all indented (markers are matched after
trimming) and whose result line is indented, the marker stages pass and the
match stage reports zero matches. -/
theorem C10_anchored_result_match (text output_var ov w rest : String)
    (r : MonitorValidationResult)
    (hov : validate_output_var output_var = some ov)
    (h : validate_monitor_output text output_var = some r)
    (hc : marker_count_errors (splitlines text) = [])
    (ho : startDiagIdx (splitlines text) < endDiagIdx (splitlines text) ∧
      endDiagIdx (splitlines text) < startResultIdx (splitlines text) ∧
      startResultIdx (splitlines text) < endResultIdx (splitlines text))
    (hone : resultNonEmpty (splitlines text) = [w ++ ov ++ "=" ++ rest])
    (hw : w.data ≠ []) (hws : w.data.all Char.isWhitespace = true) :
    r = ⟨false, [matchCountMsg ov 0, exampleMsg]⟩ ∧
    validate_monitor_output indentedText "Status" =
      some ⟨false, [matchCountMsg "Status" 0, exampleMsg]⟩ := by
  obtain ⟨ov', hov', hr⟩ := validate_monitor_output_some text output_var r h
  rw [hov] at hov'
  injection hov' with hoveq
  subst hoveq
  obtain ⟨_, hovne, hovall⟩ := validate_output_var_some output_var ov hov
  have hmatch : resultMatching (splitlines text) ov = [] := by
    unfold resultMatching
    rw [hone]
    simp [List.filter,
      no_match_of_leading_whitespace ov w rest hovne hovall hw hws]
  have hm0 : (resultMatching (splitlines text) ov).length ≠ 1 := by
    rw [hmatch]
    decide
  have he : resultNonEmpty (splitlines text) ≠ [] := by
    rw [hone]
    simp
  subst hr
  constructor
  · rw [validate_lines_of_match_count _ _ hc ho he hm0, hmatch]
    rfl
  · decide

theorem C10_witness :
    validate_monitor_output indentedText "Status" =
      some ⟨false, [matchCountMsg "Status" 0, exampleMsg]⟩ := by
  have h0 : validate_monitor_output indentedText "Status" =
      some (validate_lines (splitlines indentedText) "Status") := by decide
  rw [h0, (C10_anchored_result_match indentedText "Status" "Status" "  " "OK"
    (validate_lines (splitlines indentedText) "Status") (by decide) h0 (by decide)
    (by decide) (by decide) (by decide) (by decide)).1]

theorem C6_witness :
    (⟨true, true, false⟩ : RunPrepState).spawned = false ∧
    (⟨true, true, false⟩ : RunPrepState).workdirCreated = true :=
  ⟨(C6_amended_prepare_errors true none (some true) ".txt" .unsupportedExtension
      ⟨true, true, false⟩ rfl).1,
   ((C6_amended_prepare_errors true none (some true) ".txt" .unsupportedExtension
      ⟨true, true, false⟩ rfl).2.2.2 rfl).1⟩

end Rmm
